import Mathlib

/-!
Verification of the solar rooftop estimation tool (src/app.py).

The numeric model embeds Python float arithmetic as exact rational
arithmetic over ℚ. Each definition mirrors one function or constant of
src/app.py; the Streamlit UI layer is embedded only where a claim refers
to it (the irradiance-selection logic of lines 201-209).
-/

namespace SolarApp

/-! ## Constants (src/app.py lines 12-50) -/

def PANEL_EFFICIENCY : ℚ := 20 / 100

def SYSTEM_DERATE : ℚ := 85 / 100

def COST_PER_KW : ℚ := 50000

def CO2_FACTOR : ℚ := 82 / 100

def M2_TO_SQFT : ℚ := 107639 / 10000

def STATE_IRRADIANCES : List (String × ℚ) :=
  [("Andhra Pradesh", 1700), ("Arunachal Pradesh", 1400), ("Assam", 1500), ("Bihar", 1600),
   ("Chhattisgarh", 1800), ("Goa", 1900), ("Gujarat", 2000), ("Haryana", 1700),
   ("Himachal Pradesh", 1500), ("Jharkhand", 1600), ("Karnataka", 1800), ("Kerala", 1600),
   ("Madhya Pradesh", 1900), ("Maharashtra", 1800), ("Manipur", 1400), ("Meghalaya", 1400),
   ("Mizoram", 1400), ("Nagaland", 1400), ("Odisha", 1700), ("Punjab", 1700),
   ("Rajasthan", 2000), ("Sikkim", 1400), ("Tamil Nadu", 1900), ("Telangana", 1800),
   ("Tripura", 1500), ("Uttar Pradesh", 1700), ("Uttarakhand", 1500), ("West Bengal", 1600),
   ("Andaman and Nicobar Islands", 1700), ("Chandigarh", 1700),
   ("Dadra and Nagar Haveli and Daman and Diu", 1800), ("Lakshadweep", 1700), ("Delhi", 1700)]

/-! ## Estimation engine (src/app.py lines 124-146) -/

/-- Result dictionary returned by calculate_results. payback_years is
None (here: Option.none) when annual_savings is not positive. -/
structure EstimationResult where
  effective_area : ℚ
  capacity_kw : ℚ
  annual_gen : ℚ
  annual_savings : ℚ
  payback_years : Option ℚ
  co2_tons : ℚ
  inst_cost : ℚ
deriving Repr, DecidableEq

/-- Embedding of calculate_results (src/app.py lines 124-146), line by line. -/
def calculate_results (area_m2 shadow_free_m2 irradiance orientation_factor tariff : ℚ) :
    EstimationResult :=
  let effective_area := min area_m2 shadow_free_m2
  let annual_gen :=
    effective_area * irradiance * PANEL_EFFICIENCY * SYSTEM_DERATE * orientation_factor
  let capacity_kw := annual_gen / 1500
  let annual_savings := annual_gen * tariff
  let inst_cost := capacity_kw * COST_PER_KW
  let payback_years := if annual_savings > 0 then some (inst_cost / annual_savings) else none
  let co2_tons := (annual_gen * CO2_FACTOR) / 1000
  { effective_area := effective_area
    capacity_kw := capacity_kw
    annual_gen := annual_gen
    annual_savings := annual_savings
    payback_years := payback_years
    co2_tons := co2_tons
    inst_cost := inst_cost }

/-! ## Panel recommendation (src/app.py lines 148-154) -/

/-- Embedding of recommend_panel (src/app.py lines 148-154). The Python
elif condition `150 <= roof_area_sqft <= 500` is kept as the conjunction. -/
def recommend_panel (roof_area_sqft : ℚ) : String :=
  if roof_area_sqft < 150 then "Monocrystalline"
  else if 150 ≤ roof_area_sqft ∧ roof_area_sqft ≤ 500 then "Polycrystalline"
  else "Thin-Film"

/-- Position of a panel class on the Monocrystalline → Polycrystalline →
Thin-Film axis, used to state monotonicity of recommend_panel. -/
def panelRank (p : String) : ℕ :=
  if p = "Monocrystalline" then 0
  else if p = "Polycrystalline" then 1
  else 2

/-! ## Irradiance resolution (src/app.py lines 99-122 and 201-209) -/

/-- Extraction of the annual-energy field from the PVGIS fixed-totals
object (src/app.py line 112): the only key ever consulted is E_y. The
fixed-totals object is modelled as a key-value list. -/
def extract_E_y (fixed : List (String × ℚ)) : Option ℚ :=
  fixed.lookup "E_y"

/-- Embedding of get_pvgis_irradiance (src/app.py lines 99-122).
serviceOk covers status-200-with-JSON; the Python truthiness test
`if e_y:` makes a zero value fall through to None as well. -/
def get_pvgis_irradiance (serviceOk : Bool) (fixed : List (String × ℚ)) : Option ℚ :=
  if serviceOk then
    match extract_E_y fixed with
    | some v => if v ≠ 0 then some v else none
    | none => none
  else none

/-- Embedding of the irradiance selection at src/app.py lines 201-209:
a truthy PVGIS value wins, otherwise STATE_IRRADIANCES.get(state, 1700). -/
def resolve_irradiance (pvgis : Option ℚ) (state : String) : ℚ :=
  match pvgis with
  | some v => if v ≠ 0 then v else (STATE_IRRADIANCES.lookup state).getD 1700
  | none => (STATE_IRRADIANCES.lookup state).getD 1700

/-! ## Spec-modelled definitions absent from the source -/

/-- Modelled from the spec: the "subtract" effective-area policy (policy
(a) of §4.4 Step 1, max(area - shadow, 0)); calculate_results in
src/app.py implements no such policy and no selection flag. -/
def subtract_policy_effective_area (area shadow : ℚ) : ℚ :=
  max (area - shadow) 0

end SolarApp

namespace SolarApp

/-! ## Claim theorems -/

/-- C1 counterexample: at area = 100 m², shadow-free = 100 m², irradiance = 1700,
orientation factor 1.0, tariff 7.0, the engine's capacity is 289/15 ≈ 19.27 kW,
not the claimed 10 kW, and the installation cost is not the claimed 500,000. -/
theorem scenario1_counterexample :
    (calculate_results 100 100 1700 1 7).capacity_kw ≠ 10 ∧
    (calculate_results 100 100 1700 1 7).inst_cost ≠ 500000 := by
  constructor <;> norm_num [calculate_results, PANEL_EFFICIENCY, SYSTEM_DERATE, COST_PER_KW]

/-- C1 (amended): at area = 100 m², shadow-free = 100 m², irradiance = 1700,
orientation factor 1.0, tariff 7.0, calculate_results yields annual_gen = 28,900 kWh,
annual_savings = 202,300, capacity_kw = 289/15 ≈ 19.27 kW (generation / 1500, not
area/10), inst_cost = 2,890,000/3 ≈ 963,333, payback_years = 100/21 ≈ 4.76 years,
and co2_tons = 23.698 ≈ 23.7. -/
theorem scenario1_engine_outputs :
    calculate_results 100 100 1700 1 7 =
      { effective_area := 100, capacity_kw := 289 / 15, annual_gen := 28900,
        annual_savings := 202300, payback_years := some (100 / 21),
        co2_tons := 23698 / 1000, inst_cost := 2890000 / 3 } := by
  norm_num [calculate_results, PANEL_EFFICIENCY, SYSTEM_DERATE, COST_PER_KW, CO2_FACTOR]

/-- C2: for every input, payback_years is absent (none) exactly when
annual_savings ≤ 0, and when annual_savings > 0 it equals
inst_cost / annual_savings. -/
theorem payback_absent_iff (a s i o t : ℚ) :
    ((calculate_results a s i o t).payback_years = none ↔
      (calculate_results a s i o t).annual_savings ≤ 0) ∧
    (0 < (calculate_results a s i o t).annual_savings →
      (calculate_results a s i o t).payback_years =
        some ((calculate_results a s i o t).inst_cost /
          (calculate_results a s i o t).annual_savings)) := by
  constructor
  · simp only [calculate_results]
    split_ifs with h <;> simp <;> linarith
  · intro h
    simp only [calculate_results] at h ⊢
    rw [if_pos h]

/-- C2 witness: at the concrete scenario-1 inputs the savings are positive and
the payback equals cost divided by savings. -/
theorem payback_absent_iff_witness :
    (calculate_results 100 100 1700 1 7).payback_years =
      some ((calculate_results 100 100 1700 1 7).inst_cost /
        (calculate_results 100 100 1700 1 7).annual_savings) :=
  (payback_absent_iff 100 100 1700 1 7).2
    (by norm_num [calculate_results, PANEL_EFFICIENCY, SYSTEM_DERATE])

/-- C3: for every input, annual generation equals
effective_area × irradiance × 0.20 × 0.85 × orientation_factor, with panel
efficiency fixed at 0.20 and system derate fixed at 0.85. -/
theorem annual_gen_formula (a s i o t : ℚ) :
    (calculate_results a s i o t).annual_gen = min a s * i * (20 / 100) * (85 / 100) * o ∧
    PANEL_EFFICIENCY = 20 / 100 ∧ SYSTEM_DERATE = 85 / 100 := by
  refine ⟨?_, rfl, rfl⟩
  simp [calculate_results, PANEL_EFFICIENCY, SYSTEM_DERATE]

/-- C4: the effective area computed by calculate_results is min(area, shadow_free)
and is monotone nondecreasing in each of the two arguments. -/
theorem effective_area_min_and_monotone (a s a' s' i o t : ℚ) :
    (calculate_results a s i o t).effective_area = min a s ∧
    (a ≤ a' → (calculate_results a s i o t).effective_area ≤
      (calculate_results a' s i o t).effective_area) ∧
    (s ≤ s' → (calculate_results a s i o t).effective_area ≤
      (calculate_results a s' i o t).effective_area) := by
  refine ⟨rfl, ?_, ?_⟩
  · intro h
    exact min_le_min h le_rfl
  · intro h
    exact min_le_min le_rfl h

/-- C4 witness: monotonicity instantiated at concrete areas 100 ≤ 200 and
shadow-free areas 150 ≤ 300. -/
theorem effective_area_min_and_monotone_witness :
    (calculate_results 100 150 1700 1 7).effective_area ≤
      (calculate_results 200 150 1700 1 7).effective_area ∧
    (calculate_results 100 150 1700 1 7).effective_area ≤
      (calculate_results 100 300 1700 1 7).effective_area :=
  ⟨(effective_area_min_and_monotone 100 150 200 300 1700 1 7).2.1 (by norm_num),
   (effective_area_min_and_monotone 100 150 200 300 1700 1 7).2.2 (by norm_num)⟩

/-- C5 counterexample: on inputs where the two policies diverge (area = 100,
second argument = 30), calculate_results yields the minimum-policy value 30,
never the subtract-policy value 70; the engine exposes no configuration flag
selecting a policy. -/
theorem policy_flag_counterexample :
    (calculate_results 100 30 1700 1 7).effective_area = 30 ∧
    subtract_policy_effective_area 100 30 = 70 ∧
    ((30 : ℚ) ≠ 70) := by
  refine ⟨?_, ?_, by norm_num⟩
  · norm_num [calculate_results, min_def]
  · norm_num [subtract_policy_effective_area, max_def]

/-- C5 (amended): the engine implements only the minimum policy — for every
input its effective area is min(area, shadow_free); no subtract policy and no
configuration flag exist in calculate_results. -/
theorem engine_min_policy_only (a s i o t : ℚ) :
    (calculate_results a s i o t).effective_area = min a s := rfl

/-- C6 counterexample: a response carrying the annual energy under any key
other than E_y (here E_y_alt) is treated as missing — no alternate field name
is tried before falling back. -/
theorem pvgis_single_field_counterexample :
    extract_E_y [("E_y_alt", (1700 : ℚ))] = none ∧
    get_pvgis_irradiance true [("E_y_alt", (1700 : ℚ))] = none := by
  constructor <;> rfl

/-- C6 (amended): the resolver consults exactly one field name, E_y; whenever
that single key is absent from the fixed-totals object, extraction yields
missing and the resolver falls back. -/
theorem pvgis_field_missing_fallback (ok : Bool) (fixed : List (String × ℚ))
    (h : extract_E_y fixed = none) : get_pvgis_irradiance ok fixed = none := by
  cases ok <;> simp [get_pvgis_irradiance, h]

/-- C6 witness: a concrete successful response lacking the E_y key yields
no PVGIS value. -/
theorem pvgis_field_missing_fallback_witness :
    get_pvgis_irradiance true [("E_y_alt", (1700 : ℚ))] = none :=
  pvgis_field_missing_fallback true [("E_y_alt", (1700 : ℚ))] (by rfl)

/-- C7: irradiance resolution is total (it always returns a rational, never an
Unavailable sentinel); on service failure or a missing annual-energy field the
value comes from the STATE_IRRADIANCES table, and an absent region key yields
the fixed global default 1700. -/
theorem irradiance_fallback_total (fixed : List (String × ℚ)) (s : String) :
    get_pvgis_irradiance false fixed = none ∧
    resolve_irradiance none s = (STATE_IRRADIANCES.lookup s).getD 1700 ∧
    (STATE_IRRADIANCES.lookup s = none → resolve_irradiance none s = 1700) ∧
    (extract_E_y fixed = none →
      resolve_irradiance (get_pvgis_irradiance true fixed) s =
        (STATE_IRRADIANCES.lookup s).getD 1700) := by
  refine ⟨rfl, rfl, ?_, ?_⟩
  · intro h
    simp [resolve_irradiance, h]
  · intro h
    simp [get_pvgis_irradiance, h, resolve_irradiance]

/-- C7 witness: an unknown region resolves to the default 1700, and a response
lacking the annual-energy field resolves to the state-table value. -/
theorem irradiance_fallback_total_witness :
    resolve_irradiance none "Atlantis" = 1700 ∧
    resolve_irradiance (get_pvgis_irradiance true [("E_y_alt", (1700 : ℚ))]) "Delhi" =
      (STATE_IRRADIANCES.lookup "Delhi").getD 1700 :=
  ⟨(irradiance_fallback_total [] "Atlantis").2.2.1 (by rfl),
   (irradiance_fallback_total [("E_y_alt", (1700 : ℚ))] "Delhi").2.2.2 (by rfl)⟩

/-- C8: panel recommendation is the total step classification with thresholds
T1 = 150 and T2 = 500 square feet, inclusive boundaries on the lower class, and
panel rank (Monocrystalline = 0, Polycrystalline = 1, Thin-Film = 2) is monotone
nondecreasing in area. -/
theorem recommend_panel_thresholds_monotone (x y : ℚ) :
    (x < 150 → recommend_panel x = "Monocrystalline") ∧
    (150 ≤ x ∧ x ≤ 500 → recommend_panel x = "Polycrystalline") ∧
    (500 < x → recommend_panel x = "Thin-Film") ∧
    (x ≤ y → panelRank (recommend_panel x) ≤ panelRank (recommend_panel y)) := by
  have hchar : ∀ z : ℚ, panelRank (recommend_panel z) =
      if z < 150 then 0 else if z ≤ 500 then 1 else 2 := by
    intro z
    unfold recommend_panel panelRank
    split_ifs <;> simp_all
  refine ⟨?_, ?_, ?_, ?_⟩
  · intro h
    simp [recommend_panel, h]
  · intro h
    unfold recommend_panel
    rw [if_neg (by linarith [h.1]), if_pos h]
  · intro h
    unfold recommend_panel
    split_ifs with h1 h2
    · linarith
    · exact absurd h2.2 (by linarith)
    · rfl
  · intro hxy
    rw [hchar x, hchar y]
    split_ifs <;> first | omega | (exfalso; linarith)

/-- C8 witness: the three classes at concrete areas 100, 300 and 600 sq ft, and
monotonicity between 100 and 600. -/
theorem recommend_panel_thresholds_monotone_witness :
    recommend_panel 100 = "Monocrystalline" ∧
    recommend_panel 300 = "Polycrystalline" ∧
    recommend_panel 600 = "Thin-Film" ∧
    panelRank (recommend_panel 100) ≤ panelRank (recommend_panel 600) :=
  ⟨(recommend_panel_thresholds_monotone 100 600).1 (by norm_num),
   (recommend_panel_thresholds_monotone 300 600).2.1 (by norm_num),
   (recommend_panel_thresholds_monotone 600 0).2.2.1 (by norm_num),
   (recommend_panel_thresholds_monotone 100 600).2.2.2 (by norm_num)⟩

/-- C9: whenever payback_years is present (annual_savings > 0) it equals
COST_PER_KW / (1500 × tariff) = 50000 / (1500 × tariff) — a function of the
tariff alone, independent of area, shadow-free area, irradiance and
orientation factor. -/
theorem payback_depends_only_on_tariff (a s i o t : ℚ)
    (h : 0 < (calculate_results a s i o t).annual_savings) :
    (calculate_results a s i o t).payback_years = some (50000 / (1500 * t)) := by
  simp only [calculate_results] at h ⊢
  rw [if_pos h]
  have hg : min a s * i * PANEL_EFFICIENCY * SYSTEM_DERATE * o ≠ 0 := by
    intro h0
    rw [h0] at h
    simp at h
  have ht : t ≠ 0 := by
    intro h0
    rw [h0] at h
    simp at h
  simp only [COST_PER_KW]
  congr 1
  field_simp
  ring

/-- C9 witness: at the scenario-1 inputs with tariff 7, the payback is
50000 / (1500 × 7). -/
theorem payback_depends_only_on_tariff_witness :
    (calculate_results 100 100 1700 1 7).payback_years = some (50000 / (1500 * 7)) :=
  payback_depends_only_on_tariff 100 100 1700 1 7
    (by norm_num [calculate_results, PANEL_EFFICIENCY, SYSTEM_DERATE])

/-- C10: for nonnegative inputs every numeric output field of calculate_results
is nonnegative (payback_years read with default 0 when absent), and the
effective area never exceeds either the total area or the shadow-free area. -/
theorem calc_results_nonneg (a s i o t : ℚ) (ha : 0 ≤ a) (hs : 0 ≤ s)
    (hi : 0 ≤ i) (ho : 0 ≤ o) (ht : 0 ≤ t) :
    0 ≤ (calculate_results a s i o t).effective_area ∧
    0 ≤ (calculate_results a s i o t).capacity_kw ∧
    0 ≤ (calculate_results a s i o t).annual_gen ∧
    0 ≤ (calculate_results a s i o t).annual_savings ∧
    0 ≤ (calculate_results a s i o t).inst_cost ∧
    0 ≤ (calculate_results a s i o t).co2_tons ∧
    0 ≤ ((calculate_results a s i o t).payback_years).getD 0 ∧
    (calculate_results a s i o t).effective_area ≤ a ∧
    (calculate_results a s i o t).effective_area ≤ s := by
  simp only [calculate_results]
  have heff : 0 ≤ min a s := le_min ha hs
  have hgen : 0 ≤ min a s * i * PANEL_EFFICIENCY * SYSTEM_DERATE * o := by
    have h1 : (0 : ℚ) ≤ PANEL_EFFICIENCY := by norm_num [PANEL_EFFICIENCY]
    have h2 : (0 : ℚ) ≤ SYSTEM_DERATE := by norm_num [SYSTEM_DERATE]
    exact mul_nonneg (mul_nonneg (mul_nonneg (mul_nonneg heff hi) h1) h2) ho
  have hcap : 0 ≤ min a s * i * PANEL_EFFICIENCY * SYSTEM_DERATE * o / 1500 :=
    div_nonneg hgen (by norm_num)
  have hinst : 0 ≤ min a s * i * PANEL_EFFICIENCY * SYSTEM_DERATE * o / 1500 * COST_PER_KW :=
    mul_nonneg hcap (by norm_num [COST_PER_KW])
  refine ⟨heff, hcap, hgen, mul_nonneg hgen ht, hinst,
    div_nonneg (mul_nonneg hgen (by norm_num [CO2_FACTOR])) (by norm_num), ?_,
    min_le_left a s, min_le_right a s⟩
  split_ifs with hp
  · simpa using div_nonneg hinst (le_of_lt hp)
  · simp

/-- C10 witness: all invariants instantiated at the concrete scenario-1
inputs. -/
theorem calc_results_nonneg_witness :
    0 ≤ (calculate_results 100 100 1700 1 7).effective_area ∧
    0 ≤ (calculate_results 100 100 1700 1 7).capacity_kw ∧
    0 ≤ (calculate_results 100 100 1700 1 7).annual_gen ∧
    0 ≤ (calculate_results 100 100 1700 1 7).annual_savings ∧
    0 ≤ (calculate_results 100 100 1700 1 7).inst_cost ∧
    0 ≤ (calculate_results 100 100 1700 1 7).co2_tons ∧
    0 ≤ ((calculate_results 100 100 1700 1 7).payback_years).getD 0 ∧
    (calculate_results 100 100 1700 1 7).effective_area ≤ 100 ∧
    (calculate_results 100 100 1700 1 7).effective_area ≤ 100 :=
  calc_results_nonneg 100 100 1700 1 7 (by norm_num) (by norm_num) (by norm_num)
    (by norm_num) (by norm_num)

end SolarApp
